import Mathlib

/-!
Shallow embedding of the two source files of the repository:
`src/scraper.py` (fetcher, extractor, crawl driver) and `src/api.py`
(corpus loading, TF-IDF search endpoint).  External collaborators
(the HTTP client, the HTML parser DOM, pandas CSV parsing, sklearn
vectorizing) are modelled at their call boundary: the HTTP responses a
URL yields, the parsed DOM facts the code queries, the parsed numeric
value of a CSV cell, and the TF-IDF vectors are inputs of the embedded
functions.  Python floats are modelled as exact rationals.

The file first gives all definitions, then the theorems about them.
-/

namespace MediumScraper

/-! ## Fetcher (src/scraper.py, fetch_url, lines 10-37)

One attempt outcome at the boundary of the `requests` library:
`success body` means `requests.get` returned and `raise_for_status`
did not raise; `httpError code` means `raise_for_status` raised
`HTTPError` with the given status code; `timeout` and `netError` are
the `requests.exceptions.RequestException` cases (a timeout after the
20-second per-attempt limit, and any other network error). -/
inductive FetchOutcome where
  | success (body : String)
  | httpError (code : Nat)
  | timeout
  | netError
deriving DecidableEq, Repr

/-- The retry loop of `fetch_url`: `attempt` is the current value of the
Python loop variable, the last argument is the number of loop iterations
left (`max_retries - attempt`).  The result pairs the returned response
body (`none` = the Python `return None` paths and loop exhaustion) with
the list of `time.sleep` delays performed, in order.  A 403 sleeps
`5 * (attempt + 1)` and continues the loop; any other `HTTPError` and
any other `RequestException` return immediately. -/
def fetch_go (responses : Nat → FetchOutcome) (attempt : Nat) : Nat → Option String × List Nat
  | 0 => (none, [])
  | remaining + 1 =>
    match responses attempt with
    | .success b => (some b, [])
    | .httpError code =>
      if code = 403 then
        let rest := fetch_go responses (attempt + 1) remaining
        (rest.1, 5 * (attempt + 1) :: rest.2)
      else (none, [])
    | .timeout => (none, [])
    | .netError => (none, [])

/-- Embeds `fetch_url(url, max_retries)`: the URL is abstracted into the
sequence of outcomes its successive GET attempts produce. -/
def fetch_url (responses : Nat → FetchOutcome) (max_retries : Nat) : Option String × List Nat :=
  fetch_go responses 0 max_retries

/-- Concrete outcome sequence: 403 Forbidden on attempts 1 and 2,
success on attempt 3. -/
def resp_403_403_200 : Nat → FetchOutcome :=
  fun i => if i ≤ 1 then .httpError 403 else .success "page body"

/-- Concrete outcome sequence: 403 Forbidden on every attempt. -/
def resp_all_403 : Nat → FetchOutcome :=
  fun _ => .httpError 403

/-- Concrete outcome sequence: a network timeout on the first attempt. -/
def resp_timeout : Nat → FetchOutcome :=
  fun _ => .timeout

/-! ## Extractor (src/scraper.py, extract_medium_data, lines 39-150)

The BeautifulSoup DOM and the embedded `__NEXT_DATA__` JSON payload are
external collaborators; the embedding takes as input exactly the facts
the code queries from them.  The Python `in` substring test and
`endswith` are modelled on the character lists of the strings. -/

/-- The Python substring test `sub in s` on character lists. -/
def listHasSub (pat : List Char) : List Char → Bool
  | [] => pat.isEmpty
  | c :: rest => pat.isPrefixOf (c :: rest) || listHasSub pat rest

/-- The Python substring test `sub in s`. -/
def strHasSub (s sub : String) : Bool := listHasSub sub.data s.data

/-- The Python suffix test `s.endswith(suf)`. -/
def strEndsWith (s suf : String) : Bool := suf.data.isSuffixOf s.data

/-- A `user`/`creator` JSON object as the code reads it: the results of
`.get` for `userId`, `name` and `username` (`none` = key absent or JSON
`null`). -/
structure UserJson where
  userId : Option String
  name : Option String
  username : Option String
deriving DecidableEq, Repr

/-- The located post JSON object as the code reads it: `title`,
`virtuals.subtitle`, `virtuals.totalClapCount`, `virtuals.readingTime`,
the `name`s of `virtuals.tags`, `creatorId`, the optional embedded
`creator` object, and the `text`s of `content.bodyModel.paragraphs`
(an absent `text` key reads as the empty string). -/
structure PostJson where
  title : Option String
  subtitle : Option String
  totalClapCount : Option Int
  readingTime : Option ℚ
  tags : List String
  creatorId : Option String
  creator : Option UserJson
  paragraphs : List String
deriving DecidableEq, Repr

/-- Outcome of locating the post in the parsed `__NEXT_DATA__` JSON:
the post object (via `pageProps.pageData.post` or `pageProps.post`) and
the companion `pageProps.pageData.user` object when present. -/
structure NextData where
  post : PostJson
  user : Option UserJson
deriving DecidableEq, Repr

/-- An `img` element: the value of its `src` attribute, if any. -/
structure Img where
  src : Option String
deriving DecidableEq, Repr

/-- An anchor element with an `href`, abstracted to
`urlparse(href).netloc` (the empty string for relative links). -/
structure Anchor where
  host : String
deriving DecidableEq, Repr

/-- The facts `extract_medium_data` queries from the parsed page:
`nextData` is `none` when the `__NEXT_DATA__` script is absent, its
JSON fails to parse, or no post object is found at either known path
(the broad `except` clauses collapse these cases to an empty
intermediate dict); `h1`/`h2` are the stripped texts of the first such
headings; `mainContent` is the text of the main-role `div` or else of
the first `article` element; `bodyText` is the text of the `body`
element — `none` means the document has no `body` element (`soup.body
is None`, as `html.parser` produces for fragment input). -/
structure Soup where
  nextData : Option NextData
  h1 : Option String
  h2 : Option String
  mainContent : Option String
  bodyText : Option String
  imgs : List Img
  anchors : List Anchor
deriving DecidableEq, Repr

/-- The intermediate `article_data` dict after the structured-JSON
layer.  An outer `none` means the key was never set; for `claps` and
`authorName` the inner `Option` distinguishes a key set to Python
`None` (the JSON value was `null` or absent) from a real value, because
the final assembly reads them with `.get(key, default)`, which does not
replace a present `None`.  For `title`, `subtitle`, `text` and
`readingTime` a present `None` and an absent key behave identically
downstream (both are falsy), so they are collapsed into one
`Option`. -/
structure ArticleData where
  title : Option String
  subtitle : Option String
  text : Option String
  claps : Option (Option Int)
  readingTime : Option ℚ
  keywords : Option (List String)
  authorName : Option (Option String)
  authorUrl : Option String
deriving DecidableEq, Repr

/-- The intermediate dict when the structured layer found no post. -/
def emptyArticleData : ArticleData := ⟨none, none, none, none, none, none, none, none⟩

/-- Python string interpolation of an optional value
(`str(None)` is the string `None`). -/
def pyStr : Option String → String
  | some s => s
  | none => "None"

/-- Author fields from the embedded `creator` sub-object of the post
(the fallback branch of the author resolution). -/
def authorFromCreator (post : PostJson) : Option (Option String) × Option String :=
  match post.creator with
  | some c => (some c.name, some ("https://medium.com/@" ++ pyStr c.username))
  | none => (none, none)

/-- Author resolution: if the companion `user` object exists and its
`userId` equals the post `creatorId` (Python `==`, where `None == None`
is `True`), take name and synthesized URL from it; otherwise fall back
to the embedded `creator` object of the post. -/
def authorFields (post : PostJson) (user : Option UserJson) : Option (Option String) × Option String :=
  match user with
  | some u =>
    if u.userId = post.creatorId then
      (some u.name, some ("https://medium.com/@" ++ pyStr u.username))
    else authorFromCreator post
  | none => authorFromCreator post

/-- The structured-JSON layer (lines 51-91): when a post was located it
sets every key of the intermediate dict (body text as the space-join of
the paragraph texts); otherwise the dict stays empty. -/
def structuredLayer (soup : Soup) : ArticleData :=
  match soup.nextData with
  | none => emptyArticleData
  | some nd =>
    let author := authorFields nd.post nd.user
    { title := nd.post.title
      subtitle := nd.post.subtitle
      text := some (String.intercalate " " nd.post.paragraphs)
      claps := some nd.post.totalClapCount
      readingTime := nd.post.readingTime
      keywords := some nd.post.tags
      authorName := author.1
      authorUrl := author.2 }

/-- HTML fallback for the title (lines 96-98): first `h1` stripped
text, else the sentinel. -/
def h1Fallback (soup : Soup) : String := (soup.h1).getD "N/A"

/-- HTML fallback for the subtitle (lines 101-103): first `h2` stripped
text, else the sentinel. -/
def h2Fallback (soup : Soup) : String := (soup.h2).getD "N/A"

/-- Title after the per-field fallback: the structured value when
truthy (set and non-empty), else the `h1` fallback. -/
def resolveTitle (v : Option String) (soup : Soup) : String :=
  match v with
  | some s => if s = "" then h1Fallback soup else s
  | none => h1Fallback soup

/-- Subtitle after the per-field fallback. -/
def resolveSubtitle (v : Option String) (soup : Soup) : String :=
  match v with
  | some s => if s = "" then h2Fallback soup else s
  | none => h2Fallback soup

/-- Errors the extractor can actually raise.  `noneGetText` is the
`AttributeError` raised at line 111 when the document has no `body`
element: `soup.body` is `None` and the `get_text` attribute access
raises.  The exceptions of the structured layer are all caught by its
`except` clauses, so no other statement of the function can raise. -/
inductive ExtractErr where
  | noneGetText
deriving DecidableEq, Repr

/-- Text fallback (lines 106-111): text of the main-role `div` or of
the first `article` element; else the first 500 characters of the body
text plus an ellipsis marker; raises when the document has no `body`
element. -/
def textFallback (soup : Soup) : Except ExtractErr String :=
  match soup.mainContent with
  | some t => .ok t
  | none =>
    match soup.bodyText with
    | some t => .ok (t.take 500 ++ "...")
    | none => .error .noneGetText

/-- Body text after the per-field fallback. -/
def resolveText (v : Option String) (soup : Soup) : Except ExtractErr String :=
  match v with
  | some s => if s = "" then textFallback soup else .ok s
  | none => textFallback soup

/-- Image filter (line 118): keep an `img` whose `src` is present,
contains one of the two content-CDN host strings, and does not contain
the `w=40` thumbnail marker. -/
def img_keep (src : String) : Bool :=
  (strHasSub src "cdn-images-1.medium.com" || strHasSub src "miro.medium.com")
    && !strHasSub src "w=40"

/-- The surviving image `src` values, in order (line 118). -/
def article_images (imgs : List Img) : List String :=
  imgs.filterMap (fun img =>
    match img.src with
    | some s => if img_keep s then some s else none
    | none => none)

/-- The external-link test of line 129: the anchor host is non-empty
and is not (equal to the article host, or a string ending in
`.medium.com`, or a string ending in `towardsdatascience.com` — note
the missing leading dot on the latter suffix test). -/
def link_is_external (article_domain host : String) : Bool :=
  !(host = "")
    && !(host = article_domain
          || strEndsWith host ".medium.com"
          || strEndsWith host "towardsdatascience.com")

/-- External-link count (lines 122-131). -/
def count_external_links (article_domain : String) (anchors : List Anchor) : Nat :=
  anchors.countP (fun a => link_is_external article_domain a.host)

/-- The Python cast `int(q)` on a float: truncation toward zero. -/
def pyTruncInt (q : ℚ) : ℤ := if 0 ≤ q then ⌊q⌋ else ⌈q⌉

/-- Reading-time formatting (line 146): the conditional expression
yields the sentinel whenever the resolved reading time is falsy (key
absent, `None`, or the number 0), else the truncated integer followed
by a minute suffix. -/
def format_reading_time (rt : Option ℚ) : String :=
  match rt with
  | some q => if q = 0 then "N/A" else toString (pyTruncInt q) ++ " min"
  | none => "N/A"

/-- The final dict of lines 135-148.  `authorName` and `claps` are
`Option`-typed because `.get(key, default)` passes a present Python
`None` through (only an absent key gets the default). -/
structure Article where
  url : String
  title : String
  subtitle : String
  text : String
  numImages : Nat
  imageUrls : String
  externalLinks : Nat
  authorName : Option String
  authorUrl : String
  claps : Option Int
  readingTime : String
  keywords : String
deriving DecidableEq, Repr

/-- Python `article_data.get(key, default)` for a string key whose
present value may be `None`. -/
def final_get_opt (v : Option (Option String)) : Option String :=
  match v with
  | none => some "N/A"
  | some x => x

/-- Python `article_data.get` for the claps key: default 0 only when
the key is absent; a present `None` passes through. -/
def final_claps (v : Option (Option Int)) : Option Int :=
  match v with
  | none => some 0
  | some x => x

/-- The extraction part of `extract_medium_data` (lines 47-150), given
the parsed page and `urlparse(url).netloc`.  The fetch that precedes it
in the source is `fetch_url` above; a `None` response returns `None`
before any extraction, so extraction itself starts from a page. -/
def extract_medium_data (url article_domain : String) (soup : Soup) : Except ExtractErr Article :=
  let ad := structuredLayer soup
  let title := resolveTitle ad.title soup
  let subtitle := resolveSubtitle ad.subtitle soup
  match resolveText ad.text soup with
  | .error e => .error e
  | .ok text =>
    let images := article_images soup.imgs
    Except.ok
      { url := url
        title := title
        subtitle := subtitle
        text := text
        numImages := images.length
        imageUrls := String.intercalate ", " images
        externalLinks := count_external_links article_domain soup.anchors
        authorName := final_get_opt ad.authorName
        authorUrl := (ad.authorUrl).getD "N/A"
        claps := final_claps ad.claps
        readingTime := format_reading_time ad.readingTime
        keywords := String.intercalate ", " (ad.keywords.getD []) }

/-- A placeholder record used only as the irrelevant default of
`Option.getD` when naming a concretely computed extraction result. -/
def dummyArticle : Article := ⟨"", "", "", "", 0, "", 0, none, "", none, "", ""⟩

/-- A page with no structured data, no headings, no main content, and —
decisively — no `body` element, as `html.parser` yields for fragment
input such as a bare paragraph tag. -/
def bodylessSoup : Soup := ⟨none, none, none, none, none, [], []⟩

/-- The claim reading of the external-link rule, stated from the spec
words: count anchors whose host is non-empty, differs from the article
host, and is not (the domain itself or a dot-separated subdomain of)
the platform domain or the syndication-partner domain. -/
def external_link_count_spec (article_host : String) (anchors : List Anchor) : Nat :=
  anchors.countP (fun a =>
    !(a.host = "") && !(a.host = article_host)
      && !(a.host = "medium.com" || strEndsWith a.host ".medium.com")
      && !(a.host = "towardsdatascience.com" || strEndsWith a.host ".towardsdatascience.com"))

/-- A page whose single anchor points at `xtowardsdatascience.com`: not
the syndication partner, not a subdomain of it, just a host whose name
happens to end in the partner name. -/
def oneAnchorSoup : Soup :=
  ⟨none, none, none, some "main content", none, [], [⟨"xtowardsdatascience.com"⟩]⟩

/-- A page at `example.com` with one genuinely external link and one
link to `medium.com` itself. -/
def twoAnchorSoup : Soup :=
  ⟨none, some "Heading", none, some "main content", none, [],
    [⟨"github.com"⟩, ⟨"medium.com"⟩]⟩

/-- The concrete extraction result on `twoAnchorSoup`. -/
def twoAnchorArticle : Article :=
  ((extract_medium_data "https://example.com/p" "example.com" twoAnchorSoup).toOption).getD
    dummyArticle

/-- A page whose post resolves a reading time of 0. -/
def zeroReadingSoup : Soup :=
  ⟨some ⟨⟨some "Title", some "Sub", some 5, some 0, [], none, none, ["para one", "para two"]⟩,
      none⟩,
    none, none, none, some "body", [], []⟩

/-- A page whose post resolves a reading time of 2.7 minutes. -/
def fracReadingSoup : Soup :=
  ⟨some ⟨⟨some "Title", none, none, some (27/10), [], none, none, ["some text"]⟩, none⟩,
    none, none, none, none, [], []⟩

/-- The concrete extraction result on `zeroReadingSoup`. -/
def zeroReadingArticle : Article :=
  ((extract_medium_data "u" "example.com" zeroReadingSoup).toOption).getD dummyArticle

/-- The concrete extraction result on `fracReadingSoup`. -/
def fracReadingArticle : Article :=
  ((extract_medium_data "u" "example.com" fracReadingSoup).toOption).getD dummyArticle

/-! ## Ranking API (src/api.py)

The pandas CSV reader and the sklearn TF-IDF vectorizer are external
collaborators: a loaded snapshot row is its Title/URL/Claps fields, the
fitted index is one weight vector per row, and the query enters as its
transformed TF-IDF vector (out-of-vocabulary terms simply contribute
zero weight in that vector). -/

/-- One CSV claps cell at the `pd.to_numeric` coercion boundary: a
value pandas parses to the number `q`, a malformed value it cannot
parse, or a missing value. -/
inductive ClapsCell where
  | numeric (q : ℚ)
  | malformed (s : String)
  | missing
deriving DecidableEq, Repr

/-- Models `pd.to_numeric(cell, errors=coerce)`: unparseable and
missing cells coerce to NaN (modelled `none`) instead of raising. -/
def to_numeric_coerce : ClapsCell → Option ℚ
  | .numeric q => some q
  | .malformed _ => none
  | .missing => none

/-- Line 41 of src/api.py per cell: `to_numeric` then `fillna(0)` then
`astype(int)` — NaN becomes 0, then the float is truncated toward zero
to an integer. -/
def coerce_claps (c : ClapsCell) : ℤ :=
  pyTruncInt ((to_numeric_coerce c).getD 0)

/-- The whole coerced claps column. -/
def load_claps (cells : List ClapsCell) : List ℤ := cells.map coerce_claps

/-- One loaded snapshot row as the search endpoint reads it (Title, URL
and the already-coerced integer claps). -/
structure Row where
  title : String
  url : String
  claps : ℤ
deriving DecidableEq, Repr

/-- One emitted search result (lines 90-95): title, URL, integer claps
and the rounded relevance score. -/
structure ScoredResult where
  title : String
  url : String
  claps : ℤ
  relevanceScore : ℚ
deriving DecidableEq, Repr

/-- The loaded global state: the dataframe rows and the fitted TF-IDF
matrix, one weight vector per row. -/
structure Model where
  rows : List Row
  weights : List (List ℚ)
deriving DecidableEq, Repr

/-- The `linear_kernel` of two vectors: the dot product. -/
def dotProduct (v w : List ℚ) : ℚ := (List.zipWith (fun a b => a * b) v w).sum

/-- The minimum of the claps column; the value on an empty column is
irrelevant (an empty corpus has no rows). -/
def listMin : List ℤ → ℤ
  | [] => 0
  | x :: xs => xs.foldl min x

/-- The maximum of the claps column. -/
def listMax : List ℤ → ℤ
  | [] => 0
  | x :: xs => xs.foldl max x

/-- Lines 72-78: min-max normalization of the claps column when
`max_claps > min_claps`, else the constant series of 0.5. -/
def normalizedClaps (claps : List ℤ) : List ℚ :=
  if listMin claps < listMax claps then
    claps.map (fun (c : ℤ) =>
      ((c : ℚ) - (listMin claps : ℚ)) / ((listMax claps : ℚ) - (listMin claps : ℚ)))
  else List.replicate claps.length ((1 : ℚ) / 2)

/-- Python `round(x, 4)` at exact-rational precision: round half to
even at the fourth decimal digit. -/
def pyRound (q : ℚ) : ℤ :=
  if q - ⌊q⌋ < 1 / 2 then ⌊q⌋
  else if 1 / 2 < q - ⌊q⌋ then ⌊q⌋ + 1
  else if ⌊q⌋ % 2 = 0 then ⌊q⌋ else ⌊q⌋ + 1

/-- Rounding to 4 decimal digits. -/
def round4 (q : ℚ) : ℚ := ((pyRound (q * 10000) : ℤ) : ℚ) / 10000

/-- Line 82: the fused score is 0.7 times the cosine similarity plus
0.3 times the normalized claps, where the similarity of a row is the
dot product of the query vector with the weight vector of the row. -/
def fusedScores (m : Model) (queryVec : List ℚ) : List ℚ :=
  List.zipWith (fun s p => 7 / 10 * s + 3 / 10 * p)
    (m.weights.map (dotProduct queryVec))
    (normalizedClaps (m.rows.map Row.claps))

/-- Line 85: argsort of the final scores, keep the last `top_n`,
reverse.  The argsort is an ascending sort of the row indices by score
(modelled by a stable insertion sort; the claims under proof do not
depend on tie order); the Python negative slice keeps the last `top_n`
entries — or the whole list when `top_n = 0`, which the `ge=1`
validation of the endpoint makes unreachable. -/
def top_indices (scores : List ℚ) (topN : Nat) : List Nat :=
  let sorted := List.insertionSort (fun i j => scores.getD i 0 ≤ scores.getD j 0)
    (List.range scores.length)
  (if topN = 0 then sorted else sorted.drop (sorted.length - topN)).reverse

/-- The result-building loop of lines 88-95 over the computed top
indices. -/
def search_articles (m : Model) (queryVec : List ℚ) (topN : Nat) : List ScoredResult :=
  let finalScore := fusedScores m queryVec
  (top_indices finalScore topN).map (fun i =>
    { title := (m.rows.getD i ⟨"", "", 0⟩).title
      url := (m.rows.getD i ⟨"", "", 0⟩).url
      claps := (m.rows.getD i ⟨"", "", 0⟩).claps
      relevanceScore := round4 (finalScore.getD i 0) })

/-- A search response: the structured error dict of line 62, or the
result list. -/
inductive SearchResponse where
  | errorPayload (msg : String)
  | results (rs : List ScoredResult)
deriving DecidableEq, Repr

/-- The search endpoint body (lines 52-97): when `df is None` (the
snapshot failed to load at startup) it returns the error payload;
otherwise the ranking runs. -/
def search_articles_endpoint (state : Option Model) (queryVec : List ℚ) (topN : Nat) :
    SearchResponse :=
  match state with
  | none => .errorPayload "Data not loaded. Check if scrapping_results.csv exists."
  | some m => .results (search_articles m queryVec topN)

/-- A concrete two-row corpus with a fitted two-term index. -/
def modelW : Model :=
  ⟨[⟨"Article A", "https://medium.com/a", 10⟩, ⟨"Article B", "https://medium.com/b", 20⟩],
    [[1, 0], [0, 1]]⟩

/-- A concrete transformed query vector. -/
def queryVecW : List ℚ := [1, 0]

/-- The single result the concrete corpus returns for a top-1 query. -/
def resultW : ScoredResult := (search_articles modelW queryVecW 1).getD 0 ⟨"", "", 0, 0⟩

/-- A concrete snapshot column with a valid, a malformed and a missing
claps value. -/
def snapshotW : List ClapsCell := [.numeric 42, .malformed "12 claps", .missing]

/-! ## Helper lemmas on folds, list indexing and rounding -/

theorem foldl_min_le_init (xs : List ℤ) : ∀ x : ℤ, xs.foldl min x ≤ x := by
  induction xs with
  | nil => intro x; exact le_refl x
  | cons y ys ih => intro x; exact le_trans (ih (min x y)) (min_le_left x y)

theorem foldl_min_le_mem (xs : List ℤ) : ∀ x a : ℤ, a ∈ xs → xs.foldl min x ≤ a := by
  induction xs with
  | nil => intro x a ha; cases ha
  | cons y ys ih =>
    intro x a ha
    rcases List.mem_cons.mp ha with h | h
    · subst h; exact le_trans (foldl_min_le_init ys (min x a)) (min_le_right x a)
    · exact ih (min x y) a h

theorem listMin_le_of_mem {l : List ℤ} {a : ℤ} (h : a ∈ l) : listMin l ≤ a := by
  cases l with
  | nil => cases h
  | cons x xs =>
    rcases List.mem_cons.mp h with h' | h'
    · subst h'; exact foldl_min_le_init xs a
    · exact foldl_min_le_mem xs x a h'

theorem le_foldl_max_init (xs : List ℤ) : ∀ x : ℤ, x ≤ xs.foldl max x := by
  induction xs with
  | nil => intro x; exact le_refl x
  | cons y ys ih => intro x; exact le_trans (le_max_left x y) (ih (max x y))

theorem le_foldl_max_mem (xs : List ℤ) : ∀ x a : ℤ, a ∈ xs → a ≤ xs.foldl max x := by
  induction xs with
  | nil => intro x a ha; cases ha
  | cons y ys ih =>
    intro x a ha
    rcases List.mem_cons.mp ha with h | h
    · subst h; exact le_trans (le_max_right x a) (le_foldl_max_init ys (max x a))
    · exact ih (max x y) a h

theorem le_listMax_of_mem {l : List ℤ} {a : ℤ} (h : a ∈ l) : a ≤ listMax l := by
  cases l with
  | nil => cases h
  | cons x xs =>
    rcases List.mem_cons.mp h with h' | h'
    · subst h'; exact le_foldl_max_init xs a
    · exact le_foldl_max_mem xs x a h'

theorem getD_map_of_lt {α β : Type} (f : α → β) (l : List α) (i : Nat) (d₁ : α) (d₂ : β)
    (h : i < l.length) : (l.map f).getD i d₂ = f (l.getD i d₁) := by
  rw [List.getD_eq_getElem?_getD, List.getElem?_map, List.getD_eq_getElem?_getD,
    List.getElem?_eq_getElem h]
  simp

theorem getD_zipWith_of_lt {α β γ : Type} (f : α → β → γ) (l₁ : List α) (l₂ : List β)
    (i : Nat) (d₁ : α) (d₂ : β) (d₃ : γ) (h₁ : i < l₁.length) (h₂ : i < l₂.length) :
    (List.zipWith f l₁ l₂).getD i d₃ = f (l₁.getD i d₁) (l₂.getD i d₂) := by
  rw [List.getD_eq_getElem?_getD, List.getElem?_zipWith, List.getElem?_eq_getElem h₁,
    List.getElem?_eq_getElem h₂, List.getD_eq_getElem?_getD, List.getElem?_eq_getElem h₁,
    List.getD_eq_getElem?_getD, List.getElem?_eq_getElem h₂]
  simp

theorem getD_replicate_of_lt {α : Type} (n : Nat) (a d : α) (i : Nat) (h : i < n) :
    (List.replicate n a).getD i d = a := by
  rw [List.getD_eq_getElem?_getD, List.getElem?_replicate]
  simp [h]

theorem length_normalizedClaps (claps : List ℤ) :
    (normalizedClaps claps).length = claps.length := by
  unfold normalizedClaps
  split <;> simp

theorem le_pyRound (q : ℚ) : ⌊q⌋ ≤ pyRound q := by
  unfold pyRound
  split_ifs <;> omega

theorem pyRound_le (q : ℚ) : pyRound q ≤ ⌊q⌋ + 1 := by
  unfold pyRound
  split_ifs <;> omega

theorem pyRound_mono {q r : ℚ} (h : q ≤ r) : pyRound q ≤ pyRound r := by
  have hf : ⌊q⌋ ≤ ⌊r⌋ := Int.floor_mono h
  rcases eq_or_lt_of_le hf with heq | hlt
  · unfold pyRound
    rw [heq]
    have hsub : q - (⌊r⌋ : ℚ) ≤ r - (⌊r⌋ : ℚ) := by linarith
    split_ifs <;> first | omega | linarith
  · have h1 := pyRound_le q
    have h2 := le_pyRound r
    omega

theorem round4_mono {q r : ℚ} (h : q ≤ r) : round4 q ≤ round4 r := by
  unfold round4
  have h1 : pyRound (q * 10000) ≤ pyRound (r * 10000) := pyRound_mono (by linarith)
  have h2 : ((pyRound (q * 10000) : ℤ) : ℚ) ≤ ((pyRound (r * 10000) : ℤ) : ℚ) := by
    exact_mod_cast h1
  linarith

theorem length_fusedScores (m : Model) (queryVec : List ℚ)
    (hfit : m.weights.length = m.rows.length) :
    (fusedScores m queryVec).length = m.rows.length := by
  unfold fusedScores
  rw [List.length_zipWith, List.length_map, length_normalizedClaps, List.length_map, hfit,
    min_self]

theorem fusedScores_getD (m : Model) (queryVec : List ℚ) (i : Nat)
    (hfit : m.weights.length = m.rows.length) (hi : i < m.rows.length) :
    (fusedScores m queryVec).getD i 0
      = 7 / 10 * dotProduct queryVec (m.weights.getD i [])
        + 3 / 10 * (normalizedClaps (m.rows.map Row.claps)).getD i 0 := by
  unfold fusedScores
  have hw : i < (m.weights.map (dotProduct queryVec)).length := by
    rw [List.length_map, hfit]; exact hi
  have hn : i < (normalizedClaps (m.rows.map Row.claps)).length := by
    rw [length_normalizedClaps, List.length_map]; exact hi
  rw [getD_zipWith_of_lt _ _ _ i 0 0 0 hw hn,
    getD_map_of_lt (dotProduct queryVec) m.weights i [] 0 (by rw [hfit]; exact hi)]

theorem top_indices_length (scores : List ℚ) (topN : Nat) (h : 1 ≤ topN) :
    (top_indices scores topN).length = min topN scores.length := by
  unfold top_indices
  dsimp only
  have h0 : ¬ topN = 0 := by omega
  rw [if_neg h0, List.length_reverse, List.length_drop, List.length_insertionSort,
    List.length_range]
  omega

theorem top_indices_sorted (scores : List ℚ) (topN : Nat) :
    (top_indices scores topN).Pairwise (fun i j => scores.getD j 0 ≤ scores.getD i 0) := by
  unfold top_indices
  dsimp only
  haveI : IsTotal Nat (fun i j => scores.getD i 0 ≤ scores.getD j 0) :=
    ⟨fun a b => le_total _ _⟩
  haveI : IsTrans Nat (fun i j => scores.getD i 0 ≤ scores.getD j 0) :=
    ⟨fun _ _ _ hab hbc => le_trans hab hbc⟩
  have hs : List.Sorted (fun i j => scores.getD i 0 ≤ scores.getD j 0)
      (List.insertionSort (fun i j => scores.getD i 0 ≤ scores.getD j 0)
        (List.range scores.length)) :=
    List.sorted_insertionSort _ _
  rw [List.pairwise_reverse]
  split
  · exact hs
  · exact List.Pairwise.sublist (List.drop_sublist _ _) hs

theorem top_indices_mem (scores : List ℚ) (topN : Nat) (i : Nat)
    (h : i ∈ top_indices scores topN) : i < scores.length := by
  unfold top_indices at h
  dsimp only at h
  rw [List.mem_reverse] at h
  have h2 : i ∈ List.insertionSort (fun i j => scores.getD i 0 ≤ scores.getD j 0)
      (List.range scores.length) := by
    split at h
    · exact h
    · exact (List.drop_sublist _ _).subset h
  rw [List.mem_insertionSort] at h2
  exact List.mem_range.mp h2

/-- Helper: the fields of a successful extraction are the assembled
final dict of lines 135-148. -/
theorem extract_ok_fields (url article_domain : String) (soup : Soup) (a : Article)
    (h : extract_medium_data url article_domain soup = .ok a) :
    a.externalLinks = count_external_links article_domain soup.anchors ∧
      a.readingTime = format_reading_time (structuredLayer soup).readingTime := by
  unfold extract_medium_data at h
  dsimp only at h
  cases hrt : resolveText (structuredLayer soup).text soup with
  | error e => rw [hrt] at h; cases h
  | ok text =>
    rw [hrt] at h
    cases h
    exact ⟨rfl, rfl⟩

/-! ## The claims -/

/-- C5: with `max_retries = 3`, if attempts 1 and 2 return HTTP 403 and
attempt 3 succeeds, `fetch_url` sleeps exactly the two backoff delays 5
and 10 (in that order) and returns the successful response; if all
three attempts return 403 it returns `None` (Failure). -/
theorem fetch_url_backoff_on_403 (responses : Nat → FetchOutcome) (b : String) :
    (responses 0 = .httpError 403 → responses 1 = .httpError 403 →
      responses 2 = .success b → fetch_url responses 3 = (some b, [5, 10])) ∧
    ((∀ i, i < 3 → responses i = .httpError 403) → (fetch_url responses 3).1 = none) := by
  constructor
  · intro h0 h1 h2
    simp [fetch_url, fetch_go, h0, h1, h2]
  · intro h
    simp [fetch_url, fetch_go, h 0 (by norm_num), h 1 (by norm_num), h 2 (by norm_num)]

/-- C5 witness: the 403/403/200 scenario and the all-403 scenario at
concrete inputs. -/
theorem fetch_url_backoff_on_403_witness :
    fetch_url resp_403_403_200 3 = (some "page body", [5, 10]) ∧
      (fetch_url resp_all_403 3).1 = none :=
  ⟨(fetch_url_backoff_on_403 resp_403_403_200 "page body").1 rfl rfl rfl,
   (fetch_url_backoff_on_403 resp_all_403 "page body").2 (fun _ _ => rfl)⟩

/-- C9: a timeout, a generic network error, or an HTTP error status
other than 403 on the first attempt makes `fetch_url` report failure
immediately: no retry happens (later attempts are never consulted: the
statement holds for every continuation of `responses`) and no backoff
delay is slept. -/
theorem fetch_url_no_retry_on_other_errors (responses : Nat → FetchOutcome) :
    (responses 0 = .timeout → fetch_url responses 3 = (none, [])) ∧
    (responses 0 = .netError → fetch_url responses 3 = (none, [])) ∧
    (∀ code, code ≠ 403 → responses 0 = .httpError code →
      fetch_url responses 3 = (none, [])) := by
  refine ⟨fun h => ?_, fun h => ?_, fun code hc h => ?_⟩
  · simp [fetch_url, fetch_go, h]
  · simp [fetch_url, fetch_go, h]
  · simp [fetch_url, fetch_go, h, hc]

/-- C9 witness: a timeout on the first attempt at a concrete outcome
sequence yields immediate failure with no sleeps. -/
theorem fetch_url_no_retry_on_other_errors_witness :
    fetch_url resp_timeout 3 = (none, []) :=
  (fetch_url_no_retry_on_other_errors resp_timeout).1 rfl

/-- C4: the failing input.  On a page with no structured post data, no
main-role `div`, no `article` element and no `body` element, the text
fallback reaches the `get_text` attribute access on `soup.body = None`
(line 111) and the extractor raises `AttributeError` instead of
returning a sentinel-filled Article. -/
theorem extract_raises_on_bodyless_page :
    extract_medium_data "https://medium.com/p/x" "medium.com" bodylessSoup
      = .error .noneGetText := rfl

/-- C6 counterexample: on an article at `example.com` linking once to
`xtowardsdatascience.com`, the code raw suffix test excludes the link
and reports 0 external links, while the claim subdomain rule counts it
(1). -/
theorem external_link_count_mismatch :
    (extract_medium_data "https://example.com/post" "example.com" oneAnchorSoup).map
        Article.externalLinks = Except.ok 0 ∧
      external_link_count_spec "example.com" oneAnchorSoup.anchors = 1 := by
  exact ⟨rfl, rfl⟩

/-- C6 amended: for every successfully extracted page, the emitted
external-link count equals the number of anchor elements whose href
host is non-empty and (i) differs from the article URL host, (ii) does
not end with the string `.medium.com`, and (iii) does not end with the
string `towardsdatascience.com` — a raw suffix test that also excludes
unrelated hosts merely ending in that string; the count is a natural
number, hence non-negative. -/
theorem external_link_count_code (url article_domain : String) (soup : Soup) (a : Article)
    (h : extract_medium_data url article_domain soup = .ok a) :
    a.externalLinks
      = soup.anchors.countP (fun t => link_is_external article_domain t.host) :=
  (extract_ok_fields url article_domain soup a h).1

/-- C6 amended witness: the amended statement applied at the concrete
page `twoAnchorSoup`. -/
theorem external_link_count_code_witness :
    twoAnchorArticle.externalLinks
      = twoAnchorSoup.anchors.countP (fun t => link_is_external "example.com" t.host) :=
  external_link_count_code "https://example.com/p" "example.com" twoAnchorSoup
    twoAnchorArticle rfl

/-- C10: when the structured layer leaves the reading time unresolved
or resolves it to 0 (Python-falsy values), the emitted field is the
sentinel, not a formatted zero; when it resolves a positive value, the
value is truncated toward zero and formatted as an integer number of
minutes. -/
theorem reading_time_formatting (url article_domain : String) (soup : Soup) (a : Article)
    (h : extract_medium_data url article_domain soup = .ok a) :
    (((structuredLayer soup).readingTime = none ∨ (structuredLayer soup).readingTime = some 0) →
        a.readingTime = "N/A" ∧ a.readingTime ≠ "0 min") ∧
      (∀ q : ℚ, (structuredLayer soup).readingTime = some q → 0 < q →
        a.readingTime = toString (pyTruncInt q) ++ " min") := by
  have hrt := (extract_ok_fields url article_domain soup a h).2
  constructor
  · rintro (hv | hv) <;> rw [hrt, hv, format_reading_time] <;> simp
  · intro q hv hq
    rw [hrt, hv, format_reading_time]
    simp [ne_of_gt hq]

/-- C10 witness: reading time 0 yields the sentinel, and reading time
2.7 yields the truncated formatting, at concrete pages. -/
theorem reading_time_formatting_witness :
    (zeroReadingArticle.readingTime = "N/A" ∧ zeroReadingArticle.readingTime ≠ "0 min") ∧
      fracReadingArticle.readingTime = toString (pyTruncInt (27/10 : ℚ)) ++ " min" :=
  ⟨(reading_time_formatting "u" "example.com" zeroReadingSoup zeroReadingArticle rfl).1
      (Or.inr rfl),
   (reading_time_formatting "u" "example.com" fracReadingSoup fracReadingArticle rfl).2
      (27/10) rfl (by norm_num)⟩

/-- C3: for every loaded corpus and every row, the normalized
popularity is in the interval 0 to 1; when the minimum and maximum
claps coincide (all claps equal, including all zero) it is exactly one
half, and otherwise it is the min-max scaling of the row claps over the
corpus. -/
theorem normalized_claps_bounds (claps : List ℤ) (i : Nat) (hi : i < claps.length) :
    0 ≤ (normalizedClaps claps).getD i 0 ∧
      (normalizedClaps claps).getD i 0 ≤ 1 ∧
      (listMin claps = listMax claps → (normalizedClaps claps).getD i 0 = 1 / 2) ∧
      (listMin claps ≠ listMax claps →
        (normalizedClaps claps).getD i 0
          = ((claps.getD i 0 : ℚ) - (listMin claps : ℚ))
            / ((listMax claps : ℚ) - (listMin claps : ℚ))) := by
  have hmem : claps.getD i 0 ∈ claps := by
    rw [List.getD_eq_getElem?_getD, List.getElem?_eq_getElem hi]
    simp only [Option.getD_some]
    exact List.getElem_mem hi
  have h1 : listMin claps ≤ claps.getD i 0 := listMin_le_of_mem hmem
  have h2 : claps.getD i 0 ≤ listMax claps := le_listMax_of_mem hmem
  have hle : listMin claps ≤ listMax claps := le_trans h1 h2
  by_cases hlt : listMin claps < listMax claps
  · have hv : (normalizedClaps claps).getD i 0
        = ((claps.getD i 0 : ℚ) - (listMin claps : ℚ))
          / ((listMax claps : ℚ) - (listMin claps : ℚ)) := by
      unfold normalizedClaps
      rw [if_pos hlt]
      exact getD_map_of_lt _ claps i 0 0 hi
    have hd : (0 : ℚ) < (listMax claps : ℚ) - (listMin claps : ℚ) := by
      have : (listMin claps : ℚ) < (listMax claps : ℚ) := by exact_mod_cast hlt
      linarith
    have hnum0 : (0 : ℚ) ≤ (claps.getD i 0 : ℚ) - (listMin claps : ℚ) := by
      have : (listMin claps : ℚ) ≤ (claps.getD i 0 : ℚ) := by exact_mod_cast h1
      linarith
    have hnum1 : (claps.getD i 0 : ℚ) - (listMin claps : ℚ)
        ≤ (listMax claps : ℚ) - (listMin claps : ℚ) := by
      have : (claps.getD i 0 : ℚ) ≤ (listMax claps : ℚ) := by exact_mod_cast h2
      linarith
    refine ⟨?_, ?_, fun heq => absurd heq (by omega), fun _ => hv⟩
    · rw [hv]; exact div_nonneg hnum0 (le_of_lt hd)
    · rw [hv, div_le_one hd]; exact hnum1
  · have heq : listMin claps = listMax claps := le_antisymm hle (not_lt.mp hlt)
    have hv : (normalizedClaps claps).getD i 0 = 1 / 2 := by
      unfold normalizedClaps
      rw [if_neg hlt]
      exact getD_replicate_of_lt claps.length _ _ i hi
    exact ⟨by rw [hv]; norm_num, by rw [hv]; norm_num, fun _ => hv, fun hne => absurd heq hne⟩

/-- C3 witness: the corpus with claps 0, 50, 100 at row 1. -/
theorem normalized_claps_bounds_witness :
    0 ≤ (normalizedClaps [0, 50, 100]).getD 1 0 ∧
      (normalizedClaps [0, 50, 100]).getD 1 0 ≤ 1 ∧
      (listMin [0, 50, 100] = listMax [0, 50, 100] →
        (normalizedClaps [0, 50, 100]).getD 1 0 = 1 / 2) ∧
      (listMin [0, 50, 100] ≠ listMax [0, 50, 100] →
        (normalizedClaps [0, 50, 100]).getD 1 0
          = (([0, 50, 100].getD 1 0 : ℚ) - (listMin [0, 50, 100] : ℚ))
            / ((listMax [0, 50, 100] : ℚ) - (listMin [0, 50, 100] : ℚ))) :=
  normalized_claps_bounds [0, 50, 100] 1 (by norm_num)

/-- C1: for every query vector, fitted index (one weight vector per
row), non-empty corpus and `top_n` between 1 and 100, the endpoint body
returns exactly `min top_n corpusSize` results, sorted by descending
fused score. -/
theorem search_articles_length_sorted (m : Model) (queryVec : List ℚ) (topN : Nat)
    (hfit : m.weights.length = m.rows.length) (hne : m.rows ≠ [])
    (h1 : 1 ≤ topN) (h100 : topN ≤ 100) :
    (search_articles m queryVec topN).length = min topN m.rows.length ∧
      (search_articles m queryVec topN).Pairwise
        (fun a b => b.relevanceScore ≤ a.relevanceScore) := by
  constructor
  · unfold search_articles
    dsimp only
    rw [List.length_map, top_indices_length _ _ h1, length_fusedScores m queryVec hfit]
  · unfold search_articles
    dsimp only
    rw [List.pairwise_map]
    exact (top_indices_sorted (fusedScores m queryVec) topN).imp fun h => round4_mono h

/-- C1 witness: the concrete corpus with a top-1 query. -/
theorem search_articles_length_sorted_witness :
    (search_articles modelW queryVecW 1).length = min 1 modelW.rows.length ∧
      (search_articles modelW queryVecW 1).Pairwise
        (fun a b => b.relevanceScore ≤ a.relevanceScore) :=
  search_articles_length_sorted modelW queryVecW 1 rfl (by decide) (by norm_num) (by norm_num)

/-- C2: every returned result is row `i` of the corpus for some `i`,
and its emitted relevance score is 0.7 times the similarity plus 0.3
times the normalized popularity, rounded to 4 decimal digits, where the
similarity is the dot product of the query TF-IDF vector with the
weight vector of row `i`. -/
theorem search_articles_score_formula (m : Model) (queryVec : List ℚ) (topN : Nat)
    (hfit : m.weights.length = m.rows.length)
    (res : ScoredResult) (hres : res ∈ search_articles m queryVec topN) :
    ∃ i, i < m.rows.length ∧
      res.title = (m.rows.getD i ⟨"", "", 0⟩).title ∧
      res.url = (m.rows.getD i ⟨"", "", 0⟩).url ∧
      res.claps = (m.rows.getD i ⟨"", "", 0⟩).claps ∧
      res.relevanceScore
        = round4 (7 / 10 * dotProduct queryVec (m.weights.getD i [])
            + 3 / 10 * (normalizedClaps (m.rows.map Row.claps)).getD i 0) := by
  unfold search_articles at hres
  dsimp only at hres
  rw [List.mem_map] at hres
  obtain ⟨i, hi, rfl⟩ := hres
  have hilt : i < m.rows.length := by
    have h := top_indices_mem (fusedScores m queryVec) topN i hi
    rwa [length_fusedScores m queryVec hfit] at h
  exact ⟨i, hilt, rfl, rfl, rfl, by rw [fusedScores_getD m queryVec i hfit hilt]⟩

/-- C2 witness: the returned result of the concrete corpus satisfies
the score formula. -/
theorem search_articles_score_formula_witness :
    ∃ i, i < modelW.rows.length ∧
      resultW.title = (modelW.rows.getD i ⟨"", "", 0⟩).title ∧
      resultW.url = (modelW.rows.getD i ⟨"", "", 0⟩).url ∧
      resultW.claps = (modelW.rows.getD i ⟨"", "", 0⟩).claps ∧
      resultW.relevanceScore
        = round4 (7 / 10 * dotProduct queryVecW (modelW.weights.getD i [])
            + 3 / 10 * (normalizedClaps (modelW.rows.map Row.claps)).getD i 0) :=
  search_articles_score_formula modelW queryVecW 1 rfl resultW (by with_unfolding_all decide)

/-- C7 counterexample: a snapshot whose claps cell parses to the number
minus five coerces to the negative integer minus five, so coerced claps
are not always non-negative. -/
theorem coerce_claps_negative_counterexample :
    coerce_claps (.numeric (-5)) = -5 ∧ ¬ (0 ≤ coerce_claps (.numeric (-5))) := by
  constructor
  · rfl
  · decide

/-- C7 amended: for every snapshot row, coercion is total (a function,
never an exception): malformed and missing values coerce to 0, and a
numeric value truncates toward zero, which is non-negative whenever the
parsed value is. -/
theorem coerce_claps_amended (cells : List ClapsCell) (c : ClapsCell) (hc : c ∈ cells) :
    ((∀ s, c = .malformed s → coerce_claps c = 0) ∧ (c = .missing → coerce_claps c = 0)) ∧
      ∀ q : ℚ, c = .numeric q → coerce_claps c = pyTruncInt q ∧ (0 ≤ q → 0 ≤ coerce_claps c) := by
  refine ⟨⟨fun s hs => ?_, fun hs => ?_⟩, fun q hq => ?_⟩
  · subst hs; rfl
  · subst hs; rfl
  · subst hq
    refine ⟨rfl, fun hq0 => ?_⟩
    show (0 : ℤ) ≤ pyTruncInt ((to_numeric_coerce (.numeric q)).getD 0)
    unfold to_numeric_coerce pyTruncInt
    simp only [Option.getD_some]
    rw [if_pos hq0]
    exact Int.le_floor.mpr (by exact_mod_cast hq0)

/-- C7 amended witness: the amended statement applied at the concrete
snapshot column. -/
theorem coerce_claps_amended_witness :
    coerce_claps (ClapsCell.malformed "12 claps") = 0 ∧
      coerce_claps ClapsCell.missing = 0 ∧
      0 ≤ coerce_claps (ClapsCell.numeric 42) :=
  ⟨(coerce_claps_amended snapshotW (.malformed "12 claps") (by decide)).1.1 "12 claps" rfl,
   (coerce_claps_amended snapshotW .missing (by decide)).1.2 rfl,
   ((coerce_claps_amended snapshotW (.numeric 42) (by decide)).2 42 rfl).2 (by norm_num)⟩

/-- C8: when the corpus/index is not loaded (`df is None`, e.g. the
snapshot file was missing at startup), every query receives the
structured error payload of line 62; the endpoint body is a total
function, so no exception propagates to the caller. -/
theorem endpoint_error_when_data_not_loaded (queryVec : List ℚ) (topN : Nat) :
    search_articles_endpoint none queryVec topN
      = .errorPayload "Data not loaded. Check if scrapping_results.csv exists." := rfl

end MediumScraper
